import Mathlib

/-!
# C bridge of org.janelia.ur_rtde: handle registries, enumeration mapping, path
unflattening and timestamp conversion

Shallow embedding of
* `src/org.janelia.ur_rtde/cpp/ur_rtde_control_interface_c.cpp`
* `src/org.janelia.ur_rtde/cpp/ur_rtde_receive_interface_c.cpp`
* `src/org.janelia.ur_rtde/cpp/ur_rtde_robotiq_gripper_c.cpp`

Conventions of the embedding.
* A pointer is a natural number, the null pointer is `0`.
* The three function-local static `std::set`s are three `Finset Nat` fields of `World`.
* `float` and `double` are two abstract types `F` and `D`; the bridge only moves such
  values around, converting with `widen : F → D` (float to double) and
  `narrow : D → F` (double to float) and writing the literal `0`.
* Every call into the ur_rtde library (constructors and destructors included) is
  appended to `World.calls`; what the library answers is an argument of the
  embedded function (`ctor`, `ret`, `tp`, `pose`). A destructor call is also
  appended to `World.destructions`, with the membership of its object in the
  registry at that moment.
* A C array argument is a function from the index to the element; the indices at
  which `movePath` reads its `parameters` array are appended to `World.paramReads`.
* A local variable that a `switch` without `default` leaves unassigned has the
  value `none`.
* `int` values are mathematical integers; loop counters are exact as long as they
  stay below `2^31`.
-/

namespace UrRtde

set_option linter.unusedVariables false

/-- Modelled from the spec: `ur_rtde::PathEntry::eMoveType`, declared in the ur_rtde
library headers (not under src/); members in declaration order. -/
inductive eMoveType where
  | MoveJ | MoveL | MoveP | MoveC
  deriving DecidableEq, Repr

/-- Modelled from the spec: `ur_rtde::PathEntry::ePositionType`, declared in the
ur_rtde library headers; members in declaration order. -/
inductive ePositionType where
  | PositionTcpPose | PositionJoints
  deriving DecidableEq, Repr

/-- Modelled from the spec: `ur_rtde::RobotiqGripper::eMoveMode`, declared in the
ur_rtde library headers; members in declaration order. -/
inductive eMoveMode where
  | START_MOVE | WAIT_FINISHED
  deriving DecidableEq, Repr

/-- Modelled from the spec: `ur_rtde::RobotiqGripper::ePostionId` (spelt so in the
library), declared in the ur_rtde library headers; members in declaration order. -/
inductive ePostionId where
  | OPEN | CLOSE
  deriving DecidableEq, Repr

/-- Modelled from the spec: `ur_rtde::RobotiqGripper::eMoveParameter`, declared in the
ur_rtde library headers; members in declaration order. -/
inductive eMoveParameter where
  | POSITION | SPEED | FORCE
  deriving DecidableEq, Repr

/-- Modelled from the spec: `ur_rtde::RobotiqGripper::eUnit`, declared in the ur_rtde
library headers; members in declaration order. -/
inductive eUnit where
  | UNIT_DEVICE | UNIT_NORMALIZED | UNIT_PERCENT | UNIT_MM
  deriving DecidableEq, Repr

/-- Modelled from the spec: `ur_rtde::RobotiqGripper::eObjectStatus`, declared in the
ur_rtde library headers. The source only names `AT_DEST` and says in a comment that
it is 3; the other members are the three remaining codes. -/
inductive eObjectStatus where
  | MOVING | STOPPED_OUTER_OBJECT | STOPPED_INNER_OBJECT | AT_DEST
  deriving DecidableEq, Repr

/-- The cast `(int) status` of the source. -/
def eObjectStatus.toInt : eObjectStatus → Int
  | .MOVING => 0
  | .STOPPED_OUTER_OBJECT => 1
  | .STOPPED_INNER_OBJECT => 2
  | .AT_DEST => 3

/-- One `ur_rtde::PathEntry` as built by `movePath`: `{moveType, posType, params}`.
`move_type = none` stands for the local `moveType` left unassigned by the switch. -/
structure PathEntry (D : Type) where
  move_type : Option eMoveType
  position_type : ePositionType
  param : List D
  deriving DecidableEq, Repr

/-- The `ur_rtde::Path`: the entries in the order of `addEntry`. -/
abbrev Path (D : Type) := List (PathEntry D)

/-- A call into the ur_rtde library, with the arguments the bridge passes. -/
inductive ExtCall (F D : Type) where
  | control_new (ip : String) (frequency : Int) (flags : Nat)
  | control_delete (obj : Nat)
  | control_initPeriod (obj : Nat)
  | control_waitPeriod (obj : Nat) (tp : Int)
  | control_movePath (obj : Nat) (path : Path D) (asynchronous : Bool)
  | receive_new (ip : String) (frequency : Int) (vars : List String) (verbose : Bool)
  | receive_delete (obj : Nat)
  | receive_isConnected (obj : Nat)
  | receive_getActualQ (obj : Nat)
  | receive_getActualTCPPose (obj : Nat)
  | receive_isProtectiveStopped (obj : Nat)
  | receive_isEmergencyStopped (obj : Nat)
  | gripper_new (ip : String) (port : Int) (verbose : Bool)
  | gripper_delete (obj : Nat)
  | gripper_move (obj : Nat) (position speed force : F) (moveMode : eMoveMode)
  | gripper_open (obj : Nat) (speed force : F) (moveMode : eMoveMode)
  | gripper_close (obj : Nat) (speed force : F) (moveMode : eMoveMode)
  | gripper_emergencyRelease (obj : Nat) (dir : ePostionId) (moveMode : eMoveMode)
  | gripper_setUnit (obj : Nat) (p : Option eMoveParameter) (u : Option eUnit)
  | gripper_objectDetectionStatus (obj : Nat)
  | gripper_waitForMotionComplete (obj : Nat)
  deriving DecidableEq, Repr

/-- Everything the bridge functions can read or change. -/
structure World (F D : Type) where
  /-- The static set of `controlInterfaces()`. -/
  controlInterfaces : Finset Nat
  /-- The static set of `receiveInterfaces()`. -/
  receiveInterfaces : Finset Nat
  /-- The static set of `gripperInterfaces()`. -/
  gripperInterfaces : Finset Nat
  /-- What has been written to `std::cerr`. -/
  cerr : List String
  /-- The calls made into the ur_rtde library, oldest first. -/
  calls : List (ExtCall F D)
  /-- The `float` cells of the caller, by address: the targets of output pointers. -/
  mem : Nat → F
  /-- The indices at which `movePath` has read its `parameters` array, oldest first. -/
  paramReads : List Nat
  /-- For each destructor call made, oldest first: the call, and whether its object was
  still a member of its kind's registry at the moment the call was made. -/
  destructions : List (ExtCall F D × Bool)

section Bridge

variable {F D : Type}

/-- Record a call into the library. -/
def World.call (s : World F D) (c : ExtCall F D) : World F D :=
  { s with calls := s.calls ++ [c] }

/-- Write to `std::cerr`. -/
def World.log (s : World F D) (msg : String) : World F D :=
  { s with cerr := s.cerr ++ [msg] }

/-- Store through a `float*`. -/
def World.store (s : World F D) (p : Nat) (v : F) : World F D :=
  { s with mem := Function.update s.mem p v }

/-- The state before any bridge function has run: three empty sets. -/
def World.init (mem : Nat → F) : World F D :=
  { controlInterfaces := ∅, receiveInterfaces := ∅, gripperInterfaces := ∅,
    cerr := [], calls := [], mem := mem, paramReads := [], destructions := [] }

/-- The three kinds of interface, one per source file. -/
inductive Kind where
  | Control | Receive | Gripper
  deriving DecidableEq, Repr

/-- The static set of a kind. -/
def registry (k : Kind) (s : World F D) : Finset Nat :=
  match k with
  | .Control => s.controlInterfaces
  | .Receive => s.receiveInterfaces
  | .Gripper => s.gripperInterfaces

/-- The destructor call `delete obj` of a kind, as recorded in `World.calls`. -/
def destructorCall (k : Kind) (h : Nat) : ExtCall F D :=
  match k with
  | .Control => .control_delete h
  | .Receive => .receive_delete h
  | .Gripper => .gripper_delete h

/-- The statement `delete obj` executed in state `s`: the destructor call is recorded,
together with whether `obj` is a member of the kind's registry in `s`, the state in
which the call is made. -/
def World.destruct (k : Kind) (s : World F D) (obj : Nat) : World F D :=
  { s with
    calls := s.calls ++ [destructorCall k obj]
    destructions := s.destructions ++ [(destructorCall k obj, decide (obj ∈ registry k s))] }

/-! ### ur_rtde_control_interface_c.cpp -/

def isValidControlInterface (s : World F D) (interface : Nat) : World F D × Bool :=
  if interface ∈ s.controlInterfaces then
    (s, true)
  else
    (s.log "Error in org.janelia.ur_rtde: Invalid Ur_rtde ControlInterface", false)

/-- `FLAGS_DEFAULT` and `FLAG_VERBOSE` are constants of the library; `flags` is a
`uint16_t`. `ctor` is the outcome of `new ur_rtde::RTDEControlInterface(...)`:
`some obj` for the address of the new object, `none` when it throws. -/
def Ur_rtde_RTDEControlInterface_new (FLAGS_DEFAULT FLAG_VERBOSE : Nat) (ctor : Option Nat)
    (s : World F D) (ip : String) (verbose : Bool) : World F D × Nat :=
  let frequency : Int := -1
  let flags : Nat := FLAGS_DEFAULT % 65536
  let flags : Nat := if verbose then (flags ||| FLAG_VERBOSE) % 65536 else flags
  let s1 := s.call (.control_new ip frequency flags)
  match ctor with
  | some obj => ({ s1 with controlInterfaces := insert obj s1.controlInterfaces }, obj)
  | none => (s1.log "Error in org.janelia.ur_rtde: Could not create Ur_rtde ControlInterface", 0)

def Ur_rtde_RTDEControlInterface_delete (s : World F D) (obj : Nat) : World F D :=
  if obj ∈ s.controlInterfaces then
    let s1 := { s with controlInterfaces := s.controlInterfaces.erase obj }
    s1.destruct .Control obj
  else
    s

/-- Conversion of an integer to a signed integer type of `w` bits (two's complement). -/
def wrapSigned (w : Nat) (x : Int) : Int :=
  (x + 2 ^ (w - 1)) % 2 ^ w - 2 ^ (w - 1)

/-- A `steady_clock::time_point` is its tick count since the epoch, in nanoseconds;
`time_point_cast<milliseconds>` divides by 1000000 truncating toward zero. -/
def time_point_cast_milliseconds (tp : Int) : Int :=
  Int.tdiv tp 1000000

/-- `time_point<steady_clock>(milliseconds(n))`: the tick count of `n` milliseconds in
the 64-bit nanosecond representation of the clock. -/
def time_point_of_milliseconds (n : Int) : Int :=
  wrapSigned 64 (n * 1000000)

/-- `longBits` is the width of `long` on the platform (64 on LP64, 32 on LLP64);
`tp` is what `obj->initPeriod()` returns. -/
def Ur_rtde_RTDEControlInterface_initPeriod (longBits : Nat) (tp : Int)
    (s : World F D) (obj : Nat) : World F D × Int :=
  let (s1, ok) := isValidControlInterface s obj
  if !ok then
    (s1, 0)
  else
    let s2 := s1.call (.control_initPeriod obj)
    let ms := time_point_cast_milliseconds tp
    let value := ms
    let duration := wrapSigned longBits value
    (s2, duration)

def Ur_rtde_RTDEControlInterface_waitPeriod (s : World F D) (obj : Nat) (tCycleStart : Int) :
    World F D :=
  let (s1, ok) := isValidControlInterface s obj
  if ok then
    let duration := tCycleStart
    let tp := time_point_of_milliseconds duration
    s1.call (.control_waitPeriod obj tp)
  else
    s1

/-- The `switch (moveTypes[i])` of `movePath`; it has no `default`. -/
def movePath_moveType (code : Int) : Option eMoveType :=
  if code = 0 then some .MoveJ
  else if code = 1 then some .MoveL
  else if code = 2 then some .MoveP
  else if code = 3 then some .MoveC
  else none

/-- The conditional expression on `positionTypes[i]` of `movePath`. -/
def movePath_posType (code : Int) : ePositionType :=
  if code = 0 then .PositionTcpPose else .PositionJoints

/-- The inner loop of `movePath`, `for (k = 0; k < parametersCounts[i]; ++k)
params.push_back(parameters[j++])`, with `n` iterations left. Returns `params`, `j` and
the indices read. -/
def movePath_params (widen : F → D) (parameters : Nat → F) :
    Nat → Nat → List D → List Nat → List D × Nat × List Nat
  | 0, j, params, reads => (params, j, reads)
  | n + 1, j, params, reads =>
    movePath_params widen parameters n (j + 1) (params ++ [widen (parameters j)]) (reads ++ [j])

/-- The outer loop of `movePath`, `for (i = 0; i < count; ++i)`, with `n` iterations
left. Returns `path`, `j` and the indices read. -/
def movePath_entries (widen : F → D) (moveTypes positionTypes parametersCounts : Nat → Int)
    (parameters : Nat → F) : Nat → Nat → Nat → Path D → List Nat → Path D × Nat × List Nat
  | 0, _, j, path, reads => (path, j, reads)
  | n + 1, i, j, path, reads =>
    let moveType := movePath_moveType (moveTypes i)
    let posType := movePath_posType (positionTypes i)
    let (params, j1, reads1) :=
      movePath_params widen parameters (parametersCounts i).toNat j [] reads
    movePath_entries widen moveTypes positionTypes parametersCounts parameters n (i + 1) j1
      (path ++ [{ move_type := moveType, position_type := posType, param := params }]) reads1

/-- `ret` is what `obj->movePath(path, asynchronous)` returns. `parametersCountTotal` is
an argument the body never uses. -/
def Ur_rtde_RTDEControlInterface_movePath (widen : F → D) (ret : Bool) (s : World F D)
    (obj : Nat) (count : Int) (moveTypes positionTypes parametersCounts : Nat → Int)
    (parametersCountTotal : Int) (parameters : Nat → F) (asynchronous : Bool) :
    World F D × Bool :=
  let (s1, ok) := isValidControlInterface s obj
  if !ok then
    (s1, false)
  else
    let (path, _, reads) :=
      movePath_entries widen moveTypes positionTypes parametersCounts parameters
        count.toNat 0 0 [] s1.paramReads
    let s2 := { s1 with paramReads := reads }
    (s2.call (.control_movePath obj path asynchronous), ret)

/-! ### ur_rtde_receive_interface_c.cpp -/

def isValidReceiveInterface (s : World F D) (interface : Nat) : World F D × Bool :=
  if interface ∈ s.receiveInterfaces then
    (s, true)
  else
    (s.log "Error in org.janelia.ur_rtde: Invalid Ur_rtde ReceiveInterface", false)

/-- `ctor` is the outcome of `new ur_rtde::RTDEReceiveInterface(...)`. -/
def Ur_rtde_RTDEReceiveInterface_new (ctor : Option Nat) (s : World F D) (ip : String)
    (verbose : Bool) : World F D × Nat :=
  let frequency : Int := -1
  let vars : List String := []
  let s1 := s.call (.receive_new ip frequency vars verbose)
  match ctor with
  | some obj => ({ s1 with receiveInterfaces := insert obj s1.receiveInterfaces }, obj)
  | none => (s1.log "Error in org.janelia.ur_rtde: Could not create Ur_rtde ReceiveInterface", 0)

def Ur_rtde_RTDEReceiveInterface_delete (s : World F D) (obj : Nat) : World F D :=
  if obj ∈ s.receiveInterfaces then
    let s1 := { s with receiveInterfaces := s.receiveInterfaces.erase obj }
    s1.destruct .Receive obj
  else
    s

/-- `ret` is what `obj->isConnected()` returns. -/
def Ur_rtde_RTDEReceiveInterface_isConnected (ret : Bool) (s : World F D) (obj : Nat) :
    World F D × Bool :=
  let (s1, ok) := isValidReceiveInterface s obj
  if !ok then
    (s1, false)
  else
    (s1.call (.receive_isConnected obj), ret)

/-- The six stores after a successful pose query, `*a0 = float(pose[0]); ...`. An
element the vector does not have reads as `zero`. -/
def storePose (narrow : D → F) (zero : F) (pose : List D) (s : World F D)
    (a0 a1 a2 a3 a4 a5 : Nat) : World F D :=
  let d : D → F := narrow
  let at_ (i : Nat) : F := (pose.get? i).elim zero d
  (((((s.store a0 (at_ 0)).store a1 (at_ 1)).store a2 (at_ 2)).store a3 (at_ 3)).store a4
    (at_ 4)).store a5 (at_ 5)

/-- The chained assignment `*a0 = *a1 = *a2 = *a3 = *a4 = *a5 = 0`, rightmost first. -/
def storeZeros (zero : F) (s : World F D) (a0 a1 a2 a3 a4 a5 : Nat) : World F D :=
  (((((s.store a5 zero).store a4 zero).store a3 zero).store a2 zero).store a1 zero).store a0
    zero

/-- `pose` is what `obj->getActualQ()` returns; `zero` is the `float` 0. -/
def Ur_rtde_RTDEReceiveInterface_getActualQ (narrow : D → F) (zero : F) (pose : List D)
    (s : World F D) (obj : Nat) (a0 a1 a2 a3 a4 a5 : Nat) : World F D × Bool :=
  let (s1, ok) := isValidReceiveInterface s obj
  if !ok then
    (storeZeros zero s1 a0 a1 a2 a3 a4 a5, false)
  else
    let s2 := s1.call (.receive_getActualQ obj)
    (storePose narrow zero pose s2 a0 a1 a2 a3 a4 a5, true)

/-- `pose` is what `obj->getActualTCPPose()` returns; `zero` is the `float` 0. -/
def Ur_rtde_RTDEReceiveInterface_getActualTCPPose (narrow : D → F) (zero : F) (pose : List D)
    (s : World F D) (obj : Nat) (x y z rx ry rz : Nat) : World F D × Bool :=
  let (s1, ok) := isValidReceiveInterface s obj
  if !ok then
    (storeZeros zero s1 x y z rx ry rz, false)
  else
    let s2 := s1.call (.receive_getActualTCPPose obj)
    (storePose narrow zero pose s2 x y z rx ry rz, true)

/-- `ret` is what `obj->isProtectiveStopped()` returns. -/
def Ur_rtde_RTDEReceiveInterface_isProtectiveStopped (ret : Bool) (s : World F D) (obj : Nat) :
    World F D × Bool :=
  let (s1, ok) := isValidReceiveInterface s obj
  if !ok then
    (s1, false)
  else
    (s1.call (.receive_isProtectiveStopped obj), ret)

/-- `ret` is what `obj->isEmergencyStopped()` returns. -/
def Ur_rtde_RTDEReceiveInterface_isEmergencyStopped (ret : Bool) (s : World F D) (obj : Nat) :
    World F D × Bool :=
  let (s1, ok) := isValidReceiveInterface s obj
  if !ok then
    (s1, false)
  else
    (s1.call (.receive_isEmergencyStopped obj), ret)

/-! ### ur_rtde_robotiq_gripper_c.cpp -/

def isValidGripperInterface (s : World F D) (interface : Nat) : World F D × Bool :=
  if interface ∈ s.gripperInterfaces then
    (s, true)
  else
    (s.log "Error in org.janelia.ur_rtde: Invalid Ur_rtde RobotiqGripper", false)

/-- `ctor` is the outcome of `new ur_rtde::RobotiqGripper(ip, port, verbose)`. -/
def Ur_rtde_RobotiqGripper_new (ctor : Option Nat) (s : World F D) (ip : String) (port : Int)
    (verbose : Bool) : World F D × Nat :=
  let s1 := s.call (.gripper_new ip port verbose)
  match ctor with
  | some obj => ({ s1 with gripperInterfaces := insert obj s1.gripperInterfaces }, obj)
  | none => (s1.log "Error in org.janelia.ur_rtde: Could not create Ur_rtde RobotiqGripper", 0)

def Ur_rtde_RobotiqGripper_delete (s : World F D) (obj : Nat) : World F D :=
  if obj ∈ s.gripperInterfaces then
    let s1 := { s with gripperInterfaces := s.gripperInterfaces.erase obj }
    s1.destruct .Gripper obj
  else
    s

/-- The conditional expression `(mode == 0) ? START_MOVE : WAIT_FINISHED`, written out
in `move`, `open`, `close` and `emergencyRelease`. -/
def gripper_moveMode (mode : Int) : eMoveMode :=
  if mode = 0 then .START_MOVE else .WAIT_FINISHED

/-- The conditional expression `(direction == 0) ? OPEN : CLOSE` of `emergencyRelease`. -/
def emergencyRelease_dir (direction : Int) : ePostionId :=
  if direction = 0 then .OPEN else .CLOSE

/-- `ret` is what `obj->move(position, speed, force, moveMode)` returns. -/
def Ur_rtde_RobotiqGripper_move (ret : Int) (s : World F D) (obj : Nat)
    (position speed force : F) (mode : Int) : World F D × Int :=
  let (s1, ok) := isValidGripperInterface s obj
  if !ok then
    (s1, 0)
  else
    let moveMode := gripper_moveMode mode
    (s1.call (.gripper_move obj position speed force moveMode), ret)

/-- `ret` is what `obj->open(speed, force, moveMode)` returns. -/
def Ur_rtde_RobotiqGripper_open (ret : Int) (s : World F D) (obj : Nat)
    (speed force : F) (mode : Int) : World F D × Int :=
  let (s1, ok) := isValidGripperInterface s obj
  if !ok then
    (s1, 0)
  else
    let moveMode := gripper_moveMode mode
    (s1.call (.gripper_open obj speed force moveMode), ret)

/-- `ret` is what `obj->close(speed, force, moveMode)` returns. -/
def Ur_rtde_RobotiqGripper_close (ret : Int) (s : World F D) (obj : Nat)
    (speed force : F) (mode : Int) : World F D × Int :=
  let (s1, ok) := isValidGripperInterface s obj
  if !ok then
    (s1, 0)
  else
    let moveMode := gripper_moveMode mode
    (s1.call (.gripper_close obj speed force moveMode), ret)

def Ur_rtde_RobotiqGripper_emergencyRelease (s : World F D) (obj : Nat)
    (direction mode : Int) : World F D :=
  let (s1, ok) := isValidGripperInterface s obj
  if ok then
    let dir := emergencyRelease_dir direction
    let moveMode := gripper_moveMode mode
    s1.call (.gripper_emergencyRelease obj dir moveMode)
  else
    s1

/-- The first `switch (param)` of `setUnit`, assigning `p`; it has no `default`. -/
def setUnit_p (param : Int) : Option eMoveParameter :=
  if param = 0 then some .POSITION
  else if param = 1 then some .SPEED
  else if param = 2 then some .FORCE
  else none

/-- The second switch of `setUnit`, assigning `u`; it has no `default`. Its argument
is what the source switches on. -/
def setUnit_u (code : Int) : Option eUnit :=
  if code = 0 then some .UNIT_DEVICE
  else if code = 1 then some .UNIT_NORMALIZED
  else if code = 2 then some .UNIT_PERCENT
  else if code = 3 then some .UNIT_MM
  else none

/-- Both switches of the source are on `param`; `unit` is not used by the body. -/
def Ur_rtde_RobotiqGripper_setUnit (s : World F D) (obj : Nat) (param unit : Int) :
    World F D :=
  let (s1, ok) := isValidGripperInterface s obj
  if ok then
    let p := setUnit_p param
    let u := setUnit_u param
    s1.call (.gripper_setUnit obj p u)
  else
    s1

/-- `result` is what `obj->objectDetectionStatus()` returns. -/
def Ur_rtde_RobotiqGripper_objectDetectionStatus (result : eObjectStatus) (s : World F D)
    (obj : Nat) : World F D × Int :=
  let (s1, ok) := isValidGripperInterface s obj
  if !ok then
    (s1, eObjectStatus.AT_DEST.toInt)
  else
    (s1.call (.gripper_objectDetectionStatus obj), result.toInt)

/-- `result` is what `obj->waitForMotionComplete()` returns. -/
def Ur_rtde_RobotiqGripper_waitForMotionComplete (result : eObjectStatus) (s : World F D)
    (obj : Nat) : World F D × Int :=
  let (s1, ok) := isValidGripperInterface s obj
  if !ok then
    (s1, eObjectStatus.AT_DEST.toInt)
  else
    (s1.call (.gripper_waitForMotionComplete obj), result.toInt)

/-! ### The three interface kinds side by side, and runs of bridge calls -/

/-- The `isValid...Interface` function of a kind. -/
def isValid (k : Kind) (s : World F D) (h : Nat) : World F D × Bool :=
  match k with
  | .Control => isValidControlInterface s h
  | .Receive => isValidReceiveInterface s h
  | .Gripper => isValidGripperInterface s h

/-- The `Ur_rtde_..._new` function of a kind (`port` is used by the gripper only, the
two flag constants by the control interface only). -/
def create (k : Kind) (FLAGS_DEFAULT FLAG_VERBOSE : Nat) (ctor : Option Nat) (s : World F D)
    (ip : String) (port : Int) (verbose : Bool) : World F D × Nat :=
  match k with
  | .Control => Ur_rtde_RTDEControlInterface_new FLAGS_DEFAULT FLAG_VERBOSE ctor s ip verbose
  | .Receive => Ur_rtde_RTDEReceiveInterface_new ctor s ip verbose
  | .Gripper => Ur_rtde_RobotiqGripper_new ctor s ip port verbose

/-- The `Ur_rtde_..._delete` function of a kind. -/
def destroy (k : Kind) (s : World F D) (h : Nat) : World F D :=
  match k with
  | .Control => Ur_rtde_RTDEControlInterface_delete s h
  | .Receive => Ur_rtde_RTDEReceiveInterface_delete s h
  | .Gripper => Ur_rtde_RobotiqGripper_delete s h

end Bridge

/-- One call of a bridge function by the foreign caller, with its arguments and with
what the library answers during the call. -/
inductive Op (F D : Type) where
  | new (k : Kind) (FLAGS_DEFAULT FLAG_VERBOSE : Nat) (ctor : Option Nat) (ip : String)
      (port : Int) (verbose : Bool)
  | delete (k : Kind) (obj : Nat)
  | initPeriod (longBits : Nat) (tp : Int) (obj : Nat)
  | waitPeriod (obj : Nat) (tCycleStart : Int)
  | movePath (widen : F → D) (ret : Bool) (obj : Nat) (count : Int)
      (moveTypes positionTypes parametersCounts : Nat → Int) (parametersCountTotal : Int)
      (parameters : Nat → F) (asynchronous : Bool)
  | isConnected (ret : Bool) (obj : Nat)
  | getActualQ (narrow : D → F) (zero : F) (pose : List D) (obj : Nat) (a0 a1 a2 a3 a4 a5 : Nat)
  | getActualTCPPose (narrow : D → F) (zero : F) (pose : List D) (obj : Nat)
      (x y z rx ry rz : Nat)
  | isProtectiveStopped (ret : Bool) (obj : Nat)
  | isEmergencyStopped (ret : Bool) (obj : Nat)
  | gripperMove (ret : Int) (obj : Nat) (position speed force : F) (mode : Int)
  | gripperOpen (ret : Int) (obj : Nat) (speed force : F) (mode : Int)
  | gripperClose (ret : Int) (obj : Nat) (speed force : F) (mode : Int)
  | emergencyRelease (obj : Nat) (direction mode : Int)
  | setUnit (obj : Nat) (param unit : Int)
  | objectDetectionStatus (result : eObjectStatus) (obj : Nat)
  | waitForMotionComplete (result : eObjectStatus) (obj : Nat)

section Runs

variable {F D : Type}

/-- The state after one bridge call. -/
def step (s : World F D) : Op F D → World F D
  | .new k fd fv ctor ip port verbose => (create k fd fv ctor s ip port verbose).1
  | .delete k obj => destroy k s obj
  | .initPeriod longBits tp obj => (Ur_rtde_RTDEControlInterface_initPeriod longBits tp s obj).1
  | .waitPeriod obj t => Ur_rtde_RTDEControlInterface_waitPeriod s obj t
  | .movePath widen ret obj count mt pt pc total ps a =>
    (Ur_rtde_RTDEControlInterface_movePath widen ret s obj count mt pt pc total ps a).1
  | .isConnected ret obj => (Ur_rtde_RTDEReceiveInterface_isConnected ret s obj).1
  | .getActualQ narrow zero pose obj a0 a1 a2 a3 a4 a5 =>
    (Ur_rtde_RTDEReceiveInterface_getActualQ narrow zero pose s obj a0 a1 a2 a3 a4 a5).1
  | .getActualTCPPose narrow zero pose obj x y z rx ry rz =>
    (Ur_rtde_RTDEReceiveInterface_getActualTCPPose narrow zero pose s obj x y z rx ry rz).1
  | .isProtectiveStopped ret obj => (Ur_rtde_RTDEReceiveInterface_isProtectiveStopped ret s obj).1
  | .isEmergencyStopped ret obj => (Ur_rtde_RTDEReceiveInterface_isEmergencyStopped ret s obj).1
  | .gripperMove ret obj p sp f m => (Ur_rtde_RobotiqGripper_move ret s obj p sp f m).1
  | .gripperOpen ret obj sp f m => (Ur_rtde_RobotiqGripper_open ret s obj sp f m).1
  | .gripperClose ret obj sp f m => (Ur_rtde_RobotiqGripper_close ret s obj sp f m).1
  | .emergencyRelease obj d m => Ur_rtde_RobotiqGripper_emergencyRelease s obj d m
  | .setUnit obj p u => Ur_rtde_RobotiqGripper_setUnit s obj p u
  | .objectDetectionStatus r obj => (Ur_rtde_RobotiqGripper_objectDetectionStatus r s obj).1
  | .waitForMotionComplete r obj => (Ur_rtde_RobotiqGripper_waitForMotionComplete r s obj).1

/-- The state after a sequence of bridge calls. -/
def run (s : World F D) : List (Op F D) → World F D
  | [] => s
  | op :: ops => run (step s op) ops

/-- The handle a call of kind `k`'s `new` returns when the constructor succeeds, in
state `s`; nothing for any other call. -/
def issuedBy (k : Kind) (s : World F D) : Op F D → Option Nat
  | .new k1 fd fv (some p) ip port verbose =>
    if k1 = k then some (create k1 fd fv (some p) s ip port verbose).2 else none
  | _ => none

/-- The handles that successful `new` calls of kind `k` return during a run from
`s`, oldest first. -/
def issued (k : Kind) (s : World F D) : List (Op F D) → List Nat
  | [] => []
  | op :: ops => (issuedBy k s op).toList ++ issued k (step s op) ops

/-- The allocator never hands out the null pointer: a constructor that succeeds does
so at a non-null address. -/
def Op.ctorNonNull : Op F D → Bool
  | .new _ _ _ (some p) _ _ _ => p != 0
  | _ => true

end Runs

/-! ### The caller's side of the path and enumeration conventions (spec sections 3, 4.3, 4.4) -/

/-- Spec, EnumMapper `toCode` for the move type: the member's position. -/
def eMoveType.toCode : eMoveType → Int
  | .MoveJ => 0
  | .MoveL => 1
  | .MoveP => 2
  | .MoveC => 3

/-- Spec, EnumMapper `toCode` for the position type: the member's position. -/
def ePositionType.toCode : ePositionType → Int
  | .PositionTcpPose => 0
  | .PositionJoints => 1

/-- Spec, EnumMapper `toCode` for the move mode: the member's position. -/
def eMoveMode.toCode : eMoveMode → Int
  | .START_MOVE => 0
  | .WAIT_FINISHED => 1

/-- Spec, EnumMapper `toCode` for the position id: the member's position. -/
def ePostionId.toCode : ePostionId → Int
  | .OPEN => 0
  | .CLOSE => 1

/-- Spec, EnumMapper `toCode` for the move parameter: the member's position. -/
def eMoveParameter.toCode : eMoveParameter → Int
  | .POSITION => 0
  | .SPEED => 1
  | .FORCE => 2

/-- Spec, EnumMapper `toCode` for the unit: the member's position. -/
def eUnit.toCode : eUnit → Int
  | .UNIT_DEVICE => 0
  | .UNIT_NORMALIZED => 1
  | .UNIT_PERCENT => 2
  | .UNIT_MM => 3

/-- Spec section 3, a PathEntry as the caller holds it: a move type, a position type and
a parameter list (of `float`, the element type of the array passed to the bridge). -/
structure SpecPathEntry (F : Type) where
  moveType : eMoveType
  positionType : ePositionType
  parameters : List F
  deriving DecidableEq, Repr

/-- Spec section 4.3, the flattened representation of a path. -/
structure Flat (F : Type) where
  moveTypes : List Int
  positionTypes : List Int
  parameterCounts : List Int
  flatParameters : List F
  deriving DecidableEq, Repr

/-- Spec section 4.3, `flatten`: one code per entry for move type and position type, one
count per entry, and the concatenation of all parameter lists in entry order. -/
def flatten {F : Type} (P : List (SpecPathEntry F)) : Flat F :=
  { moveTypes := P.map (fun e => e.moveType.toCode)
    positionTypes := P.map (fun e => e.positionType.toCode)
    parameterCounts := P.map (fun e => (e.parameters.length : Int))
    flatParameters := (P.map (fun e => e.parameters)).flatten }

/-- The C array holding the list `xs`; `pad` is what lies behind its end. -/
def arrayOf {α : Type} (pad : α) (xs : List α) : Nat → α :=
  fun i => xs.getD i pad

/-- What the bridge is expected to hand to the library for a caller's entry: the same
move type and position type, each parameter converted to `double`. -/
def SpecPathEntry.toPathEntry {F D : Type} (widen : F → D) (e : SpecPathEntry F) : PathEntry D :=
  { move_type := some e.moveType, position_type := e.positionType
    param := e.parameters.map widen }

/-- The number of parameters entries `0 .. i-1` take:
`parametersCounts[0] + ... + parametersCounts[i-1]`, a negative count taking none. -/
def consumed (parametersCounts : Nat → Int) (i : Nat) : Nat :=
  ((List.range i).map (fun t => (parametersCounts t).toNat)).sum

/-- The entry `movePath` builds for index `i`, in closed form: the codes of index `i`
and the `parametersCounts[i]` values from offset `consumed parametersCounts i` on. -/
def entryAt {F D : Type} (widen : F → D) (moveTypes positionTypes parametersCounts : Nat → Int)
    (parameters : Nat → F) (i : Nat) : PathEntry D :=
  { move_type := movePath_moveType (moveTypes i)
    position_type := movePath_posType (positionTypes i)
    param := (List.range (parametersCounts i).toNat).map
      (fun k => widen (parameters (consumed parametersCounts i + k))) }

/-! ### Concrete states used to instantiate the theorems -/

/-- A state with one live handle of each kind: 7 (control), 8 (receive), 9 (gripper). -/
def demoWorld : World Int Int :=
  { controlInterfaces := {7}, receiveInterfaces := {8}, gripperInterfaces := {9},
    cerr := [], calls := [], mem := fun _ => 5, paramReads := [], destructions := [] }

/-- A session with a gripper only: the live gripper handle 9, no control and no receive
interface. -/
def demoGripperOnly : World Int Int :=
  { controlInterfaces := ∅, receiveInterfaces := ∅, gripperInterfaces := {9},
    cerr := [], calls := [], mem := fun _ => 5, paramReads := [], destructions := [] }

/-- A session with a control interface only: the live control handle 7. -/
def demoControlOnly : World Int Int :=
  { controlInterfaces := {7}, receiveInterfaces := ∅, gripperInterfaces := ∅,
    cerr := [], calls := [], mem := fun _ => 5, paramReads := [], destructions := [] }

/-- A caller's path of two entries with six parameters each. -/
def demoPath : List (SpecPathEntry Int) :=
  [{ moveType := .MoveJ, positionType := .PositionJoints, parameters := [1, 2, 3, 4, 5, 6] },
   { moveType := .MoveL, positionType := .PositionTcpPose, parameters := [7, 8, 9, 10, 11, 12] }]

/-- The scenario with eleven parameters on the live control handle 7: two entries,
`parametersCounts = [6, 6]`, `parametersCountTotal = 11`, an array of eleven values
(behind which lies a 0). -/
def demoMismatch : World Int Int × Bool :=
  Ur_rtde_RTDEControlInterface_movePath (fun x => x) true demoWorld 7 2 (arrayOf 0 [0, 1])
    (arrayOf 0 [1, 0]) (arrayOf 0 [6, 6]) 11 (arrayOf 0 [1, 2, 3, 4, 5, 6, 7, 8, 9, 10, 11])
    false

/-- A run of four bridge calls: a control interface is created at address 7, a gripper at
address 9, the control interface is deleted, and a receive constructor throws. -/
def demoOps : List (Op Int Int) :=
  [.new .Control 1 4 (some 7) "10.0.0.2" 0 true,
   .new .Gripper 1 4 (some 9) "10.0.0.2" 63352 false,
   .delete .Control 7,
   .new .Receive 1 4 none "10.0.0.2" 0 false]

/-! ## Lemmas -/

section Lemmas

variable {F D : Type}

theorem movePath_params_eq (widen : F → D) (parameters : Nat → F) (n j : Nat)
    (params : List D) (reads : List Nat) :
    movePath_params widen parameters n j params reads =
      (params ++ (List.range n).map (fun k => widen (parameters (j + k))), j + n,
        reads ++ List.range' j n) := by
  induction n generalizing j params reads with
  | zero => simp [movePath_params]
  | succ n ih =>
    rw [movePath_params, ih, List.range_succ_eq_map, List.range'_succ]
    simp [List.map_map, Function.comp_def, Nat.add_assoc, Nat.add_comm 1]

theorem consumed_succ (pc : Nat → Int) (i : Nat) :
    consumed pc (i + 1) = consumed pc i + (pc i).toNat := by
  simp [consumed, List.sum_range_succ]

theorem consumed_mono (pc : Nat → Int) (i n : Nat) : consumed pc i ≤ consumed pc (i + n) := by
  induction n with
  | zero => simp
  | succ n ih =>
    rw [← Nat.add_assoc, consumed_succ]
    omega

theorem movePath_entries_eq (widen : F → D) (mt pt pc : Nat → Int) (ps : Nat → F)
    (n i : Nat) (path : Path D) (reads : List Nat) :
    movePath_entries widen mt pt pc ps n i (consumed pc i) path reads =
      (path ++ (List.range n).map (fun m => entryAt widen mt pt pc ps (i + m)),
        consumed pc (i + n),
        reads ++ List.range' (consumed pc i) (consumed pc (i + n) - consumed pc i)) := by
  induction n generalizing i path reads with
  | zero => simp [movePath_entries]
  | succ n ih =>
    rw [movePath_entries, movePath_params_eq]
    simp only [List.nil_append]
    rw [← consumed_succ, ih (i + 1)]
    have h1 := consumed_succ pc i
    have h2 := consumed_mono pc (i + 1) n
    have e : i + 1 + n = i + (n + 1) := by omega
    rw [e] at h2 ⊢
    refine Prod.ext ?_ (Prod.ext rfl ?_)
    · simp only [List.append_assoc, List.range_succ_eq_map, List.map_cons, List.map_map,
        List.singleton_append, Nat.add_zero]
      congr 2
      apply List.map_congr_left
      intro m _
      simp only [Function.comp_apply, Nat.succ_eq_add_one]
      congr 1
      omega
    · simp only [List.append_assoc]
      congr 1
      have h3 : consumed pc (i + 1) = consumed pc i + 1 * (pc i).toNat := by omega
      rw [h3, List.range'_append]
      congr 1
      omega

end Lemmas

section RegistryLemmas

variable {F D : Type}

theorem isValid_snd (k : Kind) (s : World F D) (h : Nat) :
    (isValid k s h).2 = true ↔ h ∈ registry k s := by
  cases k <;>
    simp only [isValid, registry, isValidControlInterface, isValidReceiveInterface,
      isValidGripperInterface] <;>
    split <;> simp_all

theorem isValid_snd_false (k : Kind) (s : World F D) (h : Nat) :
    (isValid k s h).2 = false ↔ h ∉ registry k s := by
  rw [← isValid_snd, Bool.not_eq_true]

theorem registry_create_some (k : Kind) (fd fv obj : Nat) (s : World F D) (ip : String)
    (port : Int) (verbose : Bool) :
    (create k fd fv (some obj) s ip port verbose).2 = obj ∧
      registry k (create k fd fv (some obj) s ip port verbose).1 = insert obj (registry k s) ∧
      ∀ k1, k1 ≠ k →
        registry k1 (create k fd fv (some obj) s ip port verbose).1 = registry k1 s := by
  cases k <;> refine ⟨rfl, rfl, ?_⟩ <;> intro k1 hk <;> cases k1 <;> first | rfl | exact absurd rfl hk

theorem registry_create_none (k k1 : Kind) (fd fv : Nat) (s : World F D) (ip : String)
    (port : Int) (verbose : Bool) :
    (create k fd fv none s ip port verbose).2 = 0 ∧
      registry k1 (create k fd fv none s ip port verbose).1 = registry k1 s := by
  cases k <;> cases k1 <;> exact ⟨rfl, rfl⟩

theorem registry_destroy (k : Kind) (s : World F D) (h : Nat) :
    registry k (destroy k s h) = (registry k s).erase h ∧
      ∀ k1, k1 ≠ k → registry k1 (destroy k s h) = registry k1 s := by
  cases k <;>
    simp only [destroy, registry, Ur_rtde_RTDEControlInterface_delete,
      Ur_rtde_RTDEReceiveInterface_delete, Ur_rtde_RobotiqGripper_delete, World.destruct] <;>
    split <;> rename_i hm <;> refine ⟨?_, ?_⟩ <;>
    first
      | rfl
      | exact (Finset.erase_eq_of_not_mem hm).symm
      | (intro k1 hk; cases k1 <;> first | rfl | exact absurd rfl hk)

/-- A bridge call adds to a registry at most the handle its successful `new` returns. -/
theorem registry_step (k : Kind) (s : World F D) (op : Op F D) (h : Nat)
    (hm : h ∈ registry k (step s op)) : h ∈ registry k s ∨ issuedBy k s op = some h := by
  cases op with
  | new k1 fd fv ctor ip port verbose =>
    cases ctor with
    | none =>
      left
      simpa [step, (registry_create_none k1 k fd fv s ip port verbose).2] using hm
    | some obj =>
      have hc := registry_create_some k1 fd fv obj s ip port verbose
      by_cases hk : k = k1
      · subst hk
        simp only [step, hc.2.1, Finset.mem_insert] at hm
        rcases hm with rfl | hm
        · right; simp [issuedBy, hc.1]
        · left; exact hm
      · left
        simpa [step, hc.2.2 k hk] using hm
  | delete k1 obj =>
    left
    have hd := registry_destroy k1 s obj
    by_cases hk : k = k1
    · subst hk
      simp only [step, hd.1] at hm
      exact Finset.mem_of_mem_erase hm
    · simpa [step, hd.2 k hk] using hm
  | _ =>
    left
    revert hm
    cases k <;>
      simp only [step, registry, Ur_rtde_RTDEControlInterface_initPeriod,
        Ur_rtde_RTDEControlInterface_waitPeriod, Ur_rtde_RTDEControlInterface_movePath,
        Ur_rtde_RTDEReceiveInterface_isConnected, Ur_rtde_RTDEReceiveInterface_getActualQ,
        Ur_rtde_RTDEReceiveInterface_getActualTCPPose,
        Ur_rtde_RTDEReceiveInterface_isProtectiveStopped,
        Ur_rtde_RTDEReceiveInterface_isEmergencyStopped, Ur_rtde_RobotiqGripper_move,
        Ur_rtde_RobotiqGripper_open, Ur_rtde_RobotiqGripper_close,
        Ur_rtde_RobotiqGripper_emergencyRelease, Ur_rtde_RobotiqGripper_setUnit,
        Ur_rtde_RobotiqGripper_objectDetectionStatus,
        Ur_rtde_RobotiqGripper_waitForMotionComplete, isValidControlInterface,
        isValidReceiveInterface, isValidGripperInterface, storeZeros, storePose, World.store,
        World.call, World.log] <;>
      split <;> simp

theorem registry_run (k : Kind) (ops : List (Op F D)) (s : World F D) (h : Nat)
    (hm : h ∈ registry k (run s ops)) : h ∈ registry k s ∨ h ∈ issued k s ops := by
  induction ops generalizing s with
  | nil => exact Or.inl hm
  | cons op ops ih =>
    rcases ih (step s op) hm with h1 | h1
    · rcases registry_step k s op h h1 with h2 | h2
      · exact Or.inl h2
      · right; simp [issued, h2]
    · right; simp [issued, h1]

theorem issuedBy_ne_zero (k : Kind) (s : World F D) (op : Op F D) (h : Nat)
    (hop : op.ctorNonNull = true) (hi : issuedBy k s op = some h) : h ≠ 0 := by
  cases op with
  | new k1 fd fv ctor ip port verbose =>
    cases ctor with
    | none => simp [issuedBy] at hi
    | some obj =>
      have hc := (registry_create_some k1 fd fv obj s ip port verbose).1
      simp only [issuedBy, hc] at hi
      split at hi
      · simp only [Option.some.injEq] at hi
        subst hi
        simpa [Op.ctorNonNull] using hop
      · simp at hi
  | _ => simp [issuedBy] at hi

theorem issued_ne_zero (k : Kind) (ops : List (Op F D)) (s : World F D)
    (hops : ∀ op ∈ ops, op.ctorNonNull = true) : 0 ∉ issued k s ops := by
  induction ops generalizing s with
  | nil => simp [issued]
  | cons op ops ih =>
    intro hm
    simp only [issued, List.mem_append, Option.mem_toList, Option.mem_def] at hm
    rcases hm with hm | hm
    · exact issuedBy_ne_zero k s op 0 (hops op (List.mem_cons_self _ _)) hm rfl
    · exact ih (step s op) (fun o ho => hops o (List.mem_cons_of_mem _ ho)) hm

end RegistryLemmas

section PathLemmas

variable {F D : Type}

theorem consumed_zero (pc : Nat → Int) : consumed pc 0 = 0 := rfl

/-- What `movePath` does on a live handle, in closed form. -/
theorem movePath_valid (widen : F → D) (ret : Bool) (s : World F D) (obj : Nat) (count : Int)
    (mt pt pc : Nat → Int) (total : Int) (ps : Nat → F) (a : Bool)
    (hv : obj ∈ s.controlInterfaces) :
    Ur_rtde_RTDEControlInterface_movePath widen ret s obj count mt pt pc total ps a =
      (({ s with paramReads := s.paramReads ++ List.range (consumed pc count.toNat) }).call
          (.control_movePath obj ((List.range count.toNat).map (entryAt widen mt pt pc ps)) a),
        ret) := by
  have h := movePath_entries_eq widen mt pt pc ps count.toNat 0 [] s.paramReads
  simp only [consumed_zero, Nat.zero_add, List.nil_append, Nat.sub_zero] at h
  simp only [Ur_rtde_RTDEControlInterface_movePath, isValidControlInterface, hv, if_true,
    Bool.not_true, Bool.false_eq_true, if_false, h, List.range_eq_range']

theorem map_range_eq_map {α β : Type} (l : List α) (f : Nat → β) (g : α → β)
    (h : ∀ (k : Nat) (hk : k < l.length), f k = g l[k]) :
    (List.range l.length).map f = l.map g := by
  apply List.ext_getElem
  · simp
  · intro k h1 h2
    simp only [List.length_map, List.length_range] at h1
    simp [h k h1]

theorem movePath_entries_flat (widen : F → D) (mt pt pc : Nat → Int) (ps : Nat → F)
    (P : List (SpecPathEntry F)) (i j : Nat) (path : Path D) (reads : List Nat)
    (hc : ∀ (m : Nat) (hm : m < P.length),
      mt (i + m) = P[m].moveType.toCode ∧ pt (i + m) = P[m].positionType.toCode ∧
        pc (i + m) = (P[m].parameters.length : Int))
    (hp : ∀ (k : Nat) (hk : k < (flatten P).flatParameters.length),
      ps (j + k) = (flatten P).flatParameters[k]) :
    (movePath_entries widen mt pt pc ps P.length i j path reads).1 =
      path ++ P.map (SpecPathEntry.toPathEntry widen) := by
  induction P generalizing i j path reads with
  | nil => simp [movePath_entries]
  | cons e P ih =>
    have h0 := hc 0 (by simp)
    simp only [Nat.add_zero, List.getElem_cons_zero] at h0
    have hflat : (flatten (e :: P)).flatParameters = e.parameters ++ (flatten P).flatParameters := by
      simp [flatten]
    simp only [List.length_cons, movePath_entries, movePath_params_eq, h0.1, h0.2.1, h0.2.2,
      Int.toNat_ofNat, List.nil_append]
    rw [ih]
    · have hpar : (List.range e.parameters.length).map (fun k => widen (ps (j + k))) =
          e.parameters.map widen := by
        apply map_range_eq_map
        intro k hk
        have hk2 : k < (flatten (e :: P)).flatParameters.length := by
          rw [hflat, List.length_append]; omega
        rw [hp k hk2]
        simp only [hflat]
        rw [List.getElem_append_left hk]
      have hm : movePath_moveType e.moveType.toCode = some e.moveType := by
        cases e.moveType <;> rfl
      have hq : movePath_posType e.positionType.toCode = e.positionType := by
        cases e.positionType <;> rfl
      simp [hpar, hm, hq, SpecPathEntry.toPathEntry]
    · intro m hm
      have h1 := hc (m + 1) (by simp only [List.length_cons]; omega)
      simp only [List.getElem_cons_succ] at h1
      have e1 : i + 1 + m = i + (m + 1) := by omega
      rw [e1]
      exact h1
    · intro k hk
      have hk2 : e.parameters.length + k < (flatten (e :: P)).flatParameters.length := by
        rw [hflat, List.length_append]; omega
      have h1 := hp (e.parameters.length + k) hk2
      have e1 : j + e.parameters.length + k = j + (e.parameters.length + k) := by omega
      rw [e1, h1]
      simp only [hflat]
      rw [List.getElem_append_right (by omega)]
      simp

theorem arrayOf_getElem {α : Type} (pad : α) (xs : List α) (k : Nat) (hk : k < xs.length) :
    arrayOf pad xs k = xs[k] := by
  simp [arrayOf, List.getD_eq_getElem, hk]

end PathLemmas

section GetterLemmas

variable {F D : Type}

theorem storeZeros_mem_of_mem (zero : F) (s : World F D) (a0 a1 a2 a3 a4 a5 p : Nat)
    (hp : p ∈ [a0, a1, a2, a3, a4, a5]) : (storeZeros zero s a0 a1 a2 a3 a4 a5).mem p = zero := by
  simp only [List.mem_cons, List.mem_singleton, List.not_mem_nil, or_false] at hp
  simp only [storeZeros, World.store, Function.update_apply]
  split_ifs <;> first | rfl | omega

theorem storeZeros_mem_of_not_mem (zero : F) (s : World F D) (a0 a1 a2 a3 a4 a5 p : Nat)
    (hp : p ∉ [a0, a1, a2, a3, a4, a5]) :
    (storeZeros zero s a0 a1 a2 a3 a4 a5).mem p = s.mem p := by
  simp only [List.mem_cons, List.mem_singleton, List.not_mem_nil, or_false, not_or] at hp
  simp only [storeZeros, World.store, Function.update_apply]
  split_ifs <;> first | rfl | omega

end GetterLemmas

section TimeLemmas

theorem wrapSigned_of_fits (w : Nat) (x : Int) (hw : 0 < w) (hlo : -(2 : Int) ^ (w - 1) ≤ x)
    (hhi : x < (2 : Int) ^ (w - 1)) : wrapSigned w x = x := by
  obtain ⟨n, rfl⟩ : ∃ n, w = n + 1 := ⟨w - 1, by omega⟩
  simp only [Nat.add_sub_cancel] at hlo hhi
  have hp : (2 : Int) ^ (n + 1) = 2 * 2 ^ n := by rw [pow_succ]; ring
  simp only [wrapSigned, Nat.add_sub_cancel, hp]
  generalize (2 : Int) ^ n = b at hlo hhi
  rw [Int.emod_eq_of_lt (by omega) (by omega)]
  omega

theorem tdiv_million (t : Int) :
    (0 ≤ t → Int.tdiv t 1000000 = t / 1000000) ∧
    (t < 0 → Int.tdiv t 1000000 = -((-t) / 1000000)) := by
  constructor
  · intro h
    exact Int.tdiv_eq_ediv h (by norm_num)
  · intro h
    rw [← Int.tdiv_eq_ediv (by omega) (by norm_num), Int.neg_tdiv, neg_neg]

end TimeLemmas

/-! ## The claims -/

/-- C1: handle lifecycle, for each of the three kinds. `isValid` answers true exactly
for the members of the kind's live set; right after a successful `new` (the constructor
gave the address `obj`) the returned handle is `obj` and is valid; right after `delete h`
the handle `h` is invalid; in every state reached from the empty registries by any
sequence of bridge calls, a handle that no successful `new` of the kind has returned
is invalid, and so is the null handle as long as no constructor succeeds at address 0. -/
theorem handle_lifecycle {F D : Type} :
    (∀ (k : Kind) (s : World F D) (h : Nat), (isValid k s h).2 = true ↔ h ∈ registry k s) ∧
    (∀ (k : Kind) (fd fv obj : Nat) (s : World F D) (ip : String) (port : Int) (verbose : Bool),
      (create k fd fv (some obj) s ip port verbose).2 = obj ∧
      (isValid k (create k fd fv (some obj) s ip port verbose).1
        (create k fd fv (some obj) s ip port verbose).2).2 = true) ∧
    (∀ (k : Kind) (s : World F D) (h : Nat), (isValid k (destroy k s h) h).2 = false) ∧
    (∀ (k : Kind) (mem : Nat → F) (ops : List (Op F D)) (h : Nat),
      h ∉ issued k (World.init mem) ops →
      (isValid k (run (World.init mem) ops) h).2 = false) ∧
    (∀ (k : Kind) (mem : Nat → F) (ops : List (Op F D)),
      (∀ op ∈ ops, op.ctorNonNull = true) →
      (isValid k (run (World.init mem) ops) 0).2 = false) := by
  refine ⟨isValid_snd, ?_, ?_, ?_, ?_⟩
  · intro k fd fv obj s ip port verbose
    have hc := registry_create_some k fd fv obj s ip port verbose
    refine ⟨hc.1, ?_⟩
    rw [isValid_snd, hc.1, hc.2.1]
    exact Finset.mem_insert_self _ _
  · intro k s h
    rw [isValid_snd_false, (registry_destroy k s h).1]
    exact Finset.not_mem_erase _ _
  · intro k mem ops h hi
    rw [isValid_snd_false]
    intro hm
    rcases registry_run k ops (World.init mem) h hm with h1 | h1
    · cases k <;> simp [registry, World.init] at h1
    · exact hi h1
  · intro k mem ops hops
    rw [isValid_snd_false]
    intro hm
    rcases registry_run k ops (World.init mem) 0 hm with h1 | h1
    · cases k <;> simp [registry, World.init] at h1
    · exact issued_ne_zero k ops (World.init mem) hops h1

/-- C1 on the run `demoOps` from the empty registries: 8 was never issued as a control
handle and is invalid, 7 was issued and deleted and is invalid, the gripper handle 9 is
valid, and the null handle is invalid. -/
theorem handle_lifecycle_witness :
    8 ∉ issued .Control (World.init (fun _ => 0) : World Int Int) demoOps ∧
    (isValid .Control (run (World.init (fun _ => 0) : World Int Int) demoOps) 8).2 = false ∧
    (isValid .Control (run (World.init (fun _ => 0) : World Int Int) demoOps) 7).2 = false ∧
    (isValid .Gripper (run (World.init (fun _ => 0) : World Int Int) demoOps) 9).2 = true ∧
    (∀ op ∈ demoOps, op.ctorNonNull = true) ∧
    (isValid .Receive (run (World.init (fun _ => 0) : World Int Int) demoOps) 0).2 = false :=
  ⟨by decide,
    (@handle_lifecycle Int Int).2.2.2.1 .Control (fun _ => 0) demoOps 8 (by decide),
    by decide, by decide, by decide,
    (@handle_lifecycle Int Int).2.2.2.2 .Receive (fun _ => 0) demoOps (by decide)⟩

/-- C2, as stated, fails: on the live handle 7 with `count = 2`,
`parametersCounts = [6, 6]` and `parametersCountTotal = 11` (6 + 6 differs from 11) the
bridge does call `movePath` on the controller, and it reads `parameters[11]`. -/
theorem movePath_mismatch_counterexample :
    (isValidControlInterface demoWorld 7).2 = true ∧ (6 + 6 : Int) ≠ 11 ∧
    demoMismatch.1.calls =
      ([ExtCall.control_movePath 7
        [{ move_type := some .MoveJ, position_type := .PositionJoints,
           param := [1, 2, 3, 4, 5, 6] },
         { move_type := some .MoveL, position_type := .PositionTcpPose,
           param := [7, 8, 9, 10, 11, 0] }] false] : List (ExtCall Int Int)) ∧
    demoMismatch.1.paramReads = [0, 1, 2, 3, 4, 5, 6, 7, 8, 9, 10, 11] ∧
    (11 : Nat) ∈ demoMismatch.1.paramReads := by
  decide

/-- C2, amended: `movePath` makes no use of `parametersCountTotal`. On a live handle and
for every input it issues exactly one `movePath` call on the controller and returns its
result; it reads `parameters` at exactly the indices `0 .. S-1`, in this order, where `S`
is the sum of the first `count` values of `parametersCounts` (a negative value counting
as 0); so when `S ≤ parametersCountTotal` no read is at an index `≥ parametersCountTotal`;
and the outcome is the same for every value of `parametersCountTotal`. -/
theorem movePath_no_count_check {F D : Type} (widen : F → D) (ret : Bool) (s : World F D)
    (obj : Nat) (count : Int) (mt pt pc : Nat → Int) (total : Int) (ps : Nat → F) (a : Bool)
    (hv : obj ∈ s.controlInterfaces) :
    (∃ path, (Ur_rtde_RTDEControlInterface_movePath widen ret s obj count mt pt pc total ps
        a).1.calls = s.calls ++ [ExtCall.control_movePath obj path a]) ∧
    (Ur_rtde_RTDEControlInterface_movePath widen ret s obj count mt pt pc total ps a).2 = ret ∧
    (Ur_rtde_RTDEControlInterface_movePath widen ret s obj count mt pt pc total ps
        a).1.paramReads = s.paramReads ++ List.range (consumed pc count.toNat) ∧
    ((consumed pc count.toNat : Int) ≤ total →
      ∀ j ∈ List.range (consumed pc count.toNat), (j : Int) < total) ∧
    (∀ total2 : Int,
      Ur_rtde_RTDEControlInterface_movePath widen ret s obj count mt pt pc total2 ps a =
        Ur_rtde_RTDEControlInterface_movePath widen ret s obj count mt pt pc total ps a) := by
  refine ⟨⟨(List.range count.toNat).map (entryAt widen mt pt pc ps), ?_⟩, ?_, ?_, ?_, ?_⟩
  · rw [movePath_valid widen ret s obj count mt pt pc total ps a hv]
    rfl
  · rw [movePath_valid widen ret s obj count mt pt pc total ps a hv]
  · rw [movePath_valid widen ret s obj count mt pt pc total ps a hv]
    rfl
  · intro hle j hj
    have := List.mem_range.mp hj
    omega
  · intro total2
    rfl

/-- The amended C2 at the live handle 7 of `demoWorld`, two entries with counts 6 and 6
and `parametersCountTotal = 12`: the reads are the indices 0 to 11. -/
theorem movePath_no_count_check_witness :
    7 ∈ demoWorld.controlInterfaces ∧
    (Ur_rtde_RTDEControlInterface_movePath (fun x => x) true demoWorld 7 2 (arrayOf 0 [0, 1])
      (arrayOf 0 [1, 0]) (arrayOf 0 [6, 6]) 12
      (arrayOf 0 [1, 2, 3, 4, 5, 6, 7, 8, 9, 10, 11, 12]) false).1.paramReads =
      demoWorld.paramReads ++ List.range (consumed (arrayOf 0 [6, 6]) (2 : Int).toNat) :=
  ⟨by decide,
    (movePath_no_count_check (fun x => x) true demoWorld 7 2 (arrayOf 0 [0, 1])
      (arrayOf 0 [1, 0]) (arrayOf 0 [6, 6]) 12
      (arrayOf 0 [1, 2, 3, 4, 5, 6, 7, 8, 9, 10, 11, 12]) false (by decide)).2.2.1⟩

/-- C3: path round trip through the unflattening of `movePath`. On a live handle, called
with `flatten P` (one code per entry, one count per entry, the concatenated parameters)
and `count` the number of entries of `P`, the bridge issues one `movePath` call whose
path has, entry by entry, the move type, the position type and the parameter sequence
(each value converted to `double`) of `P`. And for arbitrary arguments entry `i` of
the path handed over is `entryAt`: codes of index `i` and the `parametersCounts[i]`
consecutive values from offset `parametersCounts[0] + ... + parametersCounts[i-1]`. -/
theorem movePath_roundtrip {F D : Type} (widen : F → D) (pad : F) (ret : Bool)
    (s : World F D) (obj : Nat) (P : List (SpecPathEntry F)) (a : Bool)
    (hv : obj ∈ s.controlInterfaces) :
    (Ur_rtde_RTDEControlInterface_movePath widen ret s obj (P.length : Int)
        (arrayOf 0 (flatten P).moveTypes) (arrayOf 0 (flatten P).positionTypes)
        (arrayOf 0 (flatten P).parameterCounts) ((flatten P).flatParameters.length : Int)
        (arrayOf pad (flatten P).flatParameters) a).1.calls =
      s.calls ++ [ExtCall.control_movePath obj (P.map (SpecPathEntry.toPathEntry widen)) a] ∧
    ∀ (count : Int) (mt pt pc : Nat → Int) (total : Int) (ps : Nat → F),
      (Ur_rtde_RTDEControlInterface_movePath widen ret s obj count mt pt pc total ps a).1.calls =
        s.calls ++ [ExtCall.control_movePath obj
          ((List.range count.toNat).map (entryAt widen mt pt pc ps)) a] := by
  constructor
  · rw [movePath_valid _ _ _ _ _ _ _ _ _ _ _ hv]
    have h1 := movePath_entries_eq widen (arrayOf 0 (flatten P).moveTypes)
      (arrayOf 0 (flatten P).positionTypes) (arrayOf 0 (flatten P).parameterCounts)
      (arrayOf pad (flatten P).flatParameters) P.length 0 [] []
    have h2 := movePath_entries_flat widen (arrayOf 0 (flatten P).moveTypes)
      (arrayOf 0 (flatten P).positionTypes) (arrayOf 0 (flatten P).parameterCounts)
      (arrayOf pad (flatten P).flatParameters) P 0 0 [] []
      (by
        intro m hm
        simp only [Nat.zero_add]
        refine ⟨?_, ?_, ?_⟩ <;>
          · rw [arrayOf_getElem _ _ m (by simpa [flatten] using hm)]
            simp [flatten])
      (by
        intro k hk
        simp only [Nat.zero_add]
        exact arrayOf_getElem _ _ k hk)
    rw [consumed_zero] at h1
    rw [h1] at h2
    simp only [List.nil_append, Nat.zero_add] at h2
    simp only [World.call, Int.toNat_ofNat, h2]
  · intro count mt pt pc total ps
    rw [movePath_valid _ _ _ _ _ _ _ _ _ _ _ hv]
    rfl

/-- The scenario of C3 on the live handle 7 of `demoWorld`: two entries, counts 6 and 6,
twelve parameters give two entries of six parameters each in the original order. -/
theorem movePath_roundtrip_witness :
    7 ∈ demoWorld.controlInterfaces ∧
    (flatten demoPath).parameterCounts = [6, 6] ∧
    (flatten demoPath).flatParameters = [1, 2, 3, 4, 5, 6, 7, 8, 9, 10, 11, 12] ∧
    (Ur_rtde_RTDEControlInterface_movePath (fun x => x) true demoWorld 7 (demoPath.length : Int)
        (arrayOf 0 (flatten demoPath).moveTypes) (arrayOf 0 (flatten demoPath).positionTypes)
        (arrayOf 0 (flatten demoPath).parameterCounts)
        ((flatten demoPath).flatParameters.length : Int)
        (arrayOf 0 (flatten demoPath).flatParameters) false).1.calls =
      demoWorld.calls ++ ([ExtCall.control_movePath 7
        [{ move_type := some .MoveJ, position_type := .PositionJoints,
           param := [1, 2, 3, 4, 5, 6] },
         { move_type := some .MoveL, position_type := .PositionTcpPose,
           param := [7, 8, 9, 10, 11, 12] }] false] : List (ExtCall Int Int)) :=
  ⟨by decide, by decide, by decide,
    (movePath_roundtrip (fun x => x) 0 true demoWorld 7 demoPath false (by decide)).1⟩

/-- C4 fails on the code: on the live gripper handle 9, `setUnit` with `param = 0` and
`unit = 3` forwards `(POSITION, UNIT_DEVICE)`, where code 3 stands for `UNIT_MM`; and for
every state, handle and `param` the outcome is the same for any two values of `unit`:
the forwarded unit is selected by `param`. -/
theorem setUnit_unit_selected_by_param :
    (isValidGripperInterface demoWorld 9).2 = true ∧
    (Ur_rtde_RobotiqGripper_setUnit demoWorld 9 0 3).calls =
      ([ExtCall.gripper_setUnit 9 (some .POSITION) (some .UNIT_DEVICE)] :
        List (ExtCall Int Int)) ∧
    eUnit.UNIT_MM.toCode = 3 ∧
    (∀ (F D : Type) (s : World F D) (obj : Nat) (param u1 u2 : Int),
      Ur_rtde_RobotiqGripper_setUnit s obj param u1 =
        Ur_rtde_RobotiqGripper_setUnit s obj param u2) := by
  refine ⟨by decide, by decide, rfl, ?_⟩
  intro F D s obj param u1 u2
  rfl

/-- C5, as stated, fails: on the live gripper handle 9 the out-of-range mode 7 is
forwarded by `move` as `WAIT_FINISHED`, the out-of-range direction 5 by
`emergencyRelease` as `CLOSE`; on the live control handle 7 the out-of-range position
type 2 reaches the controller as `PositionJoints`. -/
theorem out_of_range_code_counterexample :
    (isValidGripperInterface demoWorld 9).2 = true ∧
    (Ur_rtde_RobotiqGripper_move 0 demoWorld 9 1 2 3 7).1.calls =
      ([ExtCall.gripper_move 9 1 2 3 .WAIT_FINISHED] : List (ExtCall Int Int)) ∧
    (Ur_rtde_RobotiqGripper_emergencyRelease demoWorld 9 5 7).calls =
      ([ExtCall.gripper_emergencyRelease 9 .CLOSE .WAIT_FINISHED] : List (ExtCall Int Int)) ∧
    (isValidControlInterface demoWorld 7).2 = true ∧
    (Ur_rtde_RTDEControlInterface_movePath (fun x => x) true demoWorld 7 1 (arrayOf 0 [0])
      (arrayOf 0 [2]) (arrayOf 0 [1]) 1 (arrayOf 0 [4]) false).1.calls =
      ([ExtCall.control_movePath 7
        [{ move_type := some .MoveJ, position_type := .PositionJoints, param := [4] }]
        false] : List (ExtCall Int Int)) := by
  decide

/-- C5, amended: the two-member enumerations are selected by comparing the code with 0,
so every other code, in range or not, selects the second member, and the command is
forwarded. On every live gripper handle a mode other than 0 is forwarded as
`WAIT_FINISHED` by `move`, `open`, `close` and `emergencyRelease`, and a direction other
than 0 as `CLOSE` by `emergencyRelease`; on every live control handle a position type
other than 0 at an index below `count` gives `PositionJoints` in that entry of the path
handed over. Each part needs its own handle to be live and nothing else. -/
theorem two_member_code_selects_second {F D : Type} (s : World F D) :
    (∀ g : Nat, g ∈ s.gripperInterfaces →
      (∀ (ret : Int) (position speed force : F) (mode : Int), mode ≠ 0 →
        (Ur_rtde_RobotiqGripper_move ret s g position speed force mode).1.calls =
            s.calls ++ [ExtCall.gripper_move g position speed force .WAIT_FINISHED] ∧
        (Ur_rtde_RobotiqGripper_open ret s g speed force mode).1.calls =
            s.calls ++ [ExtCall.gripper_open g speed force .WAIT_FINISHED] ∧
        (Ur_rtde_RobotiqGripper_close ret s g speed force mode).1.calls =
            s.calls ++ [ExtCall.gripper_close g speed force .WAIT_FINISHED]) ∧
      (∀ (direction mode : Int), mode ≠ 0 →
        (Ur_rtde_RobotiqGripper_emergencyRelease s g direction mode).calls =
          s.calls ++ [ExtCall.gripper_emergencyRelease g (emergencyRelease_dir direction)
            .WAIT_FINISHED]) ∧
      (∀ (direction mode : Int), direction ≠ 0 →
        (Ur_rtde_RobotiqGripper_emergencyRelease s g direction mode).calls =
          s.calls ++ [ExtCall.gripper_emergencyRelease g .CLOSE (gripper_moveMode mode)])) ∧
    (∀ c : Nat, c ∈ s.controlInterfaces →
      ∀ (widen : F → D) (ret : Bool) (count : Int) (mt pt pc : Nat → Int) (total : Int)
        (ps : Nat → F) (a : Bool) (i : Nat), i < count.toNat → pt i ≠ 0 →
      ∃ path : Path D,
        (Ur_rtde_RTDEControlInterface_movePath widen ret s c count mt pt pc total ps a).1.calls =
          s.calls ++ [ExtCall.control_movePath c path a] ∧
        path.length = count.toNat ∧
        (path.get? i).map (fun e => e.position_type) = some .PositionJoints) := by
  constructor
  · intro g hg
    refine ⟨?_, ?_, ?_⟩
    · intro ret position speed force mode hm
      simp [Ur_rtde_RobotiqGripper_move, Ur_rtde_RobotiqGripper_open,
        Ur_rtde_RobotiqGripper_close, isValidGripperInterface, hg, gripper_moveMode, hm,
        World.call]
    · intro direction mode hm
      simp [Ur_rtde_RobotiqGripper_emergencyRelease, isValidGripperInterface, hg,
        gripper_moveMode, hm, World.call]
    · intro direction mode hd
      simp [Ur_rtde_RobotiqGripper_emergencyRelease, isValidGripperInterface, hg,
        emergencyRelease_dir, hd, World.call]
  · intro c hc widen ret count mt pt pc total ps a i hi hp
    refine ⟨(List.range count.toNat).map (entryAt widen mt pt pc ps), ?_, by simp, ?_⟩
    · rw [movePath_valid widen ret s c count mt pt pc total ps a hc]
      rfl
    · simp [List.getElem?_range hi, entryAt, movePath_posType, hp]

/-- The amended C5 in two sessions. With a gripper only (`demoGripperOnly`, live handle
9, no control interface) `open` with the out-of-range mode 7 forwards `WAIT_FINISHED`;
with a control interface only (`demoControlOnly`, live handle 7, no gripper) `movePath`
with the out-of-range position type 2 hands over an entry with `PositionJoints`. -/
theorem two_member_code_selects_second_witness :
    (9 ∈ demoGripperOnly.gripperInterfaces ∧ demoGripperOnly.controlInterfaces = ∅ ∧
      (7 : Int) ≠ 0 ∧
      (Ur_rtde_RobotiqGripper_open 0 demoGripperOnly 9 2 3 7).1.calls =
        demoGripperOnly.calls ++ [ExtCall.gripper_open 9 2 3 .WAIT_FINISHED]) ∧
    (7 ∈ demoControlOnly.controlInterfaces ∧ demoControlOnly.gripperInterfaces = ∅ ∧
      ∃ path : Path Int,
        (Ur_rtde_RTDEControlInterface_movePath (fun x => x) true demoControlOnly 7 1
          (arrayOf 0 [0]) (arrayOf 0 [2]) (arrayOf 0 [1]) 1 (arrayOf 0 [4]) false).1.calls =
          demoControlOnly.calls ++ [ExtCall.control_movePath 7 path false] ∧
        path.length = (1 : Int).toNat ∧
        (path.get? 0).map (fun e => e.position_type) = some .PositionJoints) :=
  ⟨⟨by decide, by decide, by decide,
      (((two_member_code_selects_second demoGripperOnly).1 9 (by decide)).1
        0 1 2 3 7 (by decide)).2.1⟩,
    ⟨by decide, by decide,
      (two_member_code_selects_second demoControlOnly).2 7 (by decide) (fun x => x) true 1
        (arrayOf 0 [0]) (arrayOf 0 [2]) (arrayOf 0 [1]) 1 (arrayOf 0 [4]) false 0
        (by decide) (by decide)⟩⟩

/-- C6: the telemetry getters on a handle that is not in the Receive registry.
`isConnected`, `isProtectiveStopped` and `isEmergencyStopped` return false and leave the
state as it was but for the diagnostic line on `std::cerr`; `getActualQ` and
`getActualTCPPose` return false, store 0 in each of their six outputs, leave every
other memory cell as it was, and likewise change nothing else but `std::cerr`. In all
five cases the list of library calls and the three registries are unchanged. -/
theorem receive_getters_invalid_handle {F D : Type} (s : World F D) (obj : Nat)
    (hinv : obj ∉ s.receiveInterfaces) (ret : Bool) (narrow : D → F) (zero : F)
    (pose : List D) (a0 a1 a2 a3 a4 a5 : Nat) :
    Ur_rtde_RTDEReceiveInterface_isConnected ret s obj =
      (s.log "Error in org.janelia.ur_rtde: Invalid Ur_rtde ReceiveInterface", false) ∧
    Ur_rtde_RTDEReceiveInterface_isProtectiveStopped ret s obj =
      (s.log "Error in org.janelia.ur_rtde: Invalid Ur_rtde ReceiveInterface", false) ∧
    Ur_rtde_RTDEReceiveInterface_isEmergencyStopped ret s obj =
      (s.log "Error in org.janelia.ur_rtde: Invalid Ur_rtde ReceiveInterface", false) ∧
    (∀ r : World F D × Bool,
      r = Ur_rtde_RTDEReceiveInterface_getActualQ narrow zero pose s obj a0 a1 a2 a3 a4 a5 ∨
      r = Ur_rtde_RTDEReceiveInterface_getActualTCPPose narrow zero pose s obj a0 a1 a2 a3 a4
        a5 →
      r.2 = false ∧
      (∀ p ∈ [a0, a1, a2, a3, a4, a5], r.1.mem p = zero) ∧
      (∀ p, p ∉ [a0, a1, a2, a3, a4, a5] → r.1.mem p = s.mem p) ∧
      r.1.calls = s.calls ∧
      r.1.controlInterfaces = s.controlInterfaces ∧
      r.1.receiveInterfaces = s.receiveInterfaces ∧
      r.1.gripperInterfaces = s.gripperInterfaces ∧
      r.1.paramReads = s.paramReads ∧
      r.1.cerr = s.cerr ++ ["Error in org.janelia.ur_rtde: Invalid Ur_rtde ReceiveInterface"]) ∧
    (∀ msg : String, (s.log msg).calls = s.calls ∧ (s.log msg).mem = s.mem ∧
      (s.log msg).controlInterfaces = s.controlInterfaces ∧
      (s.log msg).receiveInterfaces = s.receiveInterfaces ∧
      (s.log msg).gripperInterfaces = s.gripperInterfaces ∧
      (s.log msg).paramReads = s.paramReads) := by
  refine ⟨?_, ?_, ?_, ?_, ?_⟩
  · simp [Ur_rtde_RTDEReceiveInterface_isConnected, isValidReceiveInterface, hinv]
  · simp [Ur_rtde_RTDEReceiveInterface_isProtectiveStopped, isValidReceiveInterface, hinv]
  · simp [Ur_rtde_RTDEReceiveInterface_isEmergencyStopped, isValidReceiveInterface, hinv]
  · intro r hr
    have hr2 : r = (storeZeros zero
        (s.log "Error in org.janelia.ur_rtde: Invalid Ur_rtde ReceiveInterface")
        a0 a1 a2 a3 a4 a5, false) := by
      rcases hr with hr | hr <;> rw [hr] <;>
        simp [Ur_rtde_RTDEReceiveInterface_getActualQ,
          Ur_rtde_RTDEReceiveInterface_getActualTCPPose, isValidReceiveInterface, hinv]
    subst hr2
    refine ⟨rfl, ?_, ?_, rfl, rfl, rfl, rfl, rfl, rfl⟩
    · intro p hp
      exact storeZeros_mem_of_mem zero _ a0 a1 a2 a3 a4 a5 p hp
    · intro p hp
      exact storeZeros_mem_of_not_mem zero _ a0 a1 a2 a3 a4 a5 p hp
  · intro msg
    exact ⟨rfl, rfl, rfl, rfl, rfl, rfl⟩

/-- C6 at the handle 3, which is not in the Receive registry of `demoWorld`, with the
outputs at addresses 10 to 15: `getActualQ` returns false, writes 0 there and leaves
cell 16 at its old value 5. -/
theorem receive_getters_invalid_handle_witness :
    3 ∉ demoWorld.receiveInterfaces ∧
    (Ur_rtde_RTDEReceiveInterface_getActualQ (fun x => x) 0 [1, 2, 3, 4, 5, 6] demoWorld 3
      10 11 12 13 14 15).2 = false ∧
    (Ur_rtde_RTDEReceiveInterface_getActualQ (fun x => x) 0 [1, 2, 3, 4, 5, 6] demoWorld 3
      10 11 12 13 14 15).1.mem 12 = 0 ∧
    (Ur_rtde_RTDEReceiveInterface_getActualQ (fun x => x) 0 [1, 2, 3, 4, 5, 6] demoWorld 3
      10 11 12 13 14 15).1.mem 16 = 5 ∧
    (Ur_rtde_RTDEReceiveInterface_getActualQ (fun x => x) 0 [1, 2, 3, 4, 5, 6] demoWorld 3
      10 11 12 13 14 15).1.calls = [] :=
  have h := (receive_getters_invalid_handle demoWorld 3 (by decide) true (fun x => x) 0
    [1, 2, 3, 4, 5, 6] 10 11 12 13 14 15).2.2.2.1 _ (Or.inl rfl)
  ⟨by decide, h.1, h.2.1 12 (by decide), h.2.2.1 16 (by decide), h.2.2.2.1⟩

/-- C7, as stated, fails: 4 is not in the Gripper registry of `demoWorld`, and `move`,
`open` and `close` return 0 there, not `AT_DEST`, which is 3. -/
theorem gripper_move_invalid_counterexample :
    (isValidGripperInterface demoWorld 4).2 = false ∧
    (Ur_rtde_RobotiqGripper_move 1 demoWorld 4 1 2 3 0).2 = 0 ∧
    (Ur_rtde_RobotiqGripper_open 1 demoWorld 4 2 3 0).2 = 0 ∧
    (Ur_rtde_RobotiqGripper_close 1 demoWorld 4 2 3 0).2 = 0 ∧
    eObjectStatus.AT_DEST.toInt = 3 := by
  decide

/-- C7, amended: on a handle that is not in the Gripper registry, `objectDetectionStatus`
and `waitForMotionComplete` return `AT_DEST`, the integer 3, while `move`, `open` and
`close` return 0, for all values of the other arguments; none of the five makes a
library call or changes anything but `std::cerr`, which gets the diagnostic line. -/
theorem gripper_invalid_handle_results {F D : Type} (s : World F D) (obj : Nat)
    (hinv : obj ∉ s.gripperInterfaces) (result : eObjectStatus) (ret : Int)
    (position speed force : F) (mode : Int) :
    Ur_rtde_RobotiqGripper_objectDetectionStatus result s obj =
      (s.log "Error in org.janelia.ur_rtde: Invalid Ur_rtde RobotiqGripper", 3) ∧
    Ur_rtde_RobotiqGripper_waitForMotionComplete result s obj =
      (s.log "Error in org.janelia.ur_rtde: Invalid Ur_rtde RobotiqGripper", 3) ∧
    Ur_rtde_RobotiqGripper_move ret s obj position speed force mode =
      (s.log "Error in org.janelia.ur_rtde: Invalid Ur_rtde RobotiqGripper", 0) ∧
    Ur_rtde_RobotiqGripper_open ret s obj speed force mode =
      (s.log "Error in org.janelia.ur_rtde: Invalid Ur_rtde RobotiqGripper", 0) ∧
    Ur_rtde_RobotiqGripper_close ret s obj speed force mode =
      (s.log "Error in org.janelia.ur_rtde: Invalid Ur_rtde RobotiqGripper", 0) ∧
    eObjectStatus.AT_DEST.toInt = 3 ∧
    (∀ msg : String, (s.log msg).calls = s.calls) := by
  refine ⟨?_, ?_, ?_, ?_, ?_, rfl, fun _ => rfl⟩ <;>
    simp [Ur_rtde_RobotiqGripper_objectDetectionStatus,
      Ur_rtde_RobotiqGripper_waitForMotionComplete, Ur_rtde_RobotiqGripper_move,
      Ur_rtde_RobotiqGripper_open, Ur_rtde_RobotiqGripper_close, isValidGripperInterface,
      hinv, eObjectStatus.toInt]

/-- The amended C7 at the handle 4, which is not in the Gripper registry of
`demoWorld`: `waitForMotionComplete` returns 3 and `close` returns 0. -/
theorem gripper_invalid_handle_results_witness :
    4 ∉ demoWorld.gripperInterfaces ∧
    (Ur_rtde_RobotiqGripper_waitForMotionComplete .MOVING demoWorld 4).2 = 3 ∧
    (Ur_rtde_RobotiqGripper_close 1 demoWorld 4 2 3 0).2 = 0 :=
  have h := gripper_invalid_handle_results demoWorld 4 (by decide) .MOVING 1 1 2 3 0
  ⟨by decide, congrArg Prod.snd h.2.1, congrArg Prod.snd h.2.2.2.2.1⟩

/-- C9: the timestamp conversion loses less than one millisecond. Let `t` be a time
point of the controller in nanosecond ticks (a 64-bit count) whose truncated millisecond
count fits in the `long` of `longBits` bits. On a live handle `initPeriod` returns
`t` divided by 1000000 truncating toward zero, and `waitPeriod` called with that value
passes to the controller the time point `t1` of that many milliseconds; `t` and `t1`
differ by less than 1000000 ticks, and are equal when `t` is a whole number of
milliseconds. -/
theorem timestamp_roundtrip {F D : Type} (longBits : Nat) (t : Int) (s : World F D)
    (obj : Nat) (hv : obj ∈ s.controlInterfaces) (hw : 0 < longBits)
    (ht : -(2 : Int) ^ 63 ≤ t ∧ t < (2 : Int) ^ 63)
    (hfit : -(2 : Int) ^ (longBits - 1) ≤ time_point_cast_milliseconds t ∧
      time_point_cast_milliseconds t < (2 : Int) ^ (longBits - 1)) :
    ∃ t1 : Int,
      (Ur_rtde_RTDEControlInterface_waitPeriod
          (Ur_rtde_RTDEControlInterface_initPeriod longBits t s obj).1 obj
          (Ur_rtde_RTDEControlInterface_initPeriod longBits t s obj).2).calls =
        s.calls ++ [ExtCall.control_initPeriod obj, ExtCall.control_waitPeriod obj t1] ∧
      (Ur_rtde_RTDEControlInterface_initPeriod longBits t s obj).2 = Int.tdiv t 1000000 ∧
      t1 = Int.tdiv t 1000000 * 1000000 ∧
      |t - t1| < 1000000 ∧
      ((1000000 : Int) ∣ t → t1 = t) := by
  have hm : wrapSigned longBits (time_point_cast_milliseconds t) =
      time_point_cast_milliseconds t := wrapSigned_of_fits _ _ hw hfit.1 hfit.2
  obtain ⟨ht1, ht2⟩ := ht
  have hd := tdiv_million t
  have hback : wrapSigned 64 (Int.tdiv t 1000000 * 1000000) = Int.tdiv t 1000000 * 1000000 := by
    apply wrapSigned_of_fits _ _ (by norm_num)
    · norm_num at ht1 ht2 ⊢
      rcases le_or_lt 0 t with h | h
      · rw [hd.1 h]; omega
      · rw [hd.2 h]; omega
    · norm_num at ht1 ht2 ⊢
      rcases le_or_lt 0 t with h | h
      · rw [hd.1 h]; omega
      · rw [hd.2 h]; omega
  refine ⟨Int.tdiv t 1000000 * 1000000, ?_, ?_, rfl, ?_, ?_⟩
  · simp [Ur_rtde_RTDEControlInterface_waitPeriod, Ur_rtde_RTDEControlInterface_initPeriod,
      isValidControlInterface, hv, World.call, hm, time_point_of_milliseconds]
    simp only [time_point_cast_milliseconds, hback]
  · simp only [Ur_rtde_RTDEControlInterface_initPeriod, isValidControlInterface, hv, if_true,
      Bool.not_true, Bool.false_eq_true, if_false, hm]
    rfl
  · rw [abs_lt]
    rcases le_or_lt 0 t with h | h
    · rw [hd.1 h]; omega
    · rw [hd.2 h]; omega
  · intro hdiv
    exact Int.tdiv_mul_cancel hdiv

/-- C9 at `t = -1234567890` ticks on the live control handle 7 of `demoWorld` with a
32-bit `long`: `initPeriod` returns -1234 and `waitPeriod` receives a time point within
one millisecond of `t`. -/
theorem timestamp_roundtrip_witness :
    7 ∈ demoWorld.controlInterfaces ∧
    (Ur_rtde_RTDEControlInterface_initPeriod 32 (-1234567890) demoWorld 7).2 = -1234 ∧
    ∃ t1 : Int,
      (Ur_rtde_RTDEControlInterface_waitPeriod
          (Ur_rtde_RTDEControlInterface_initPeriod 32 (-1234567890) demoWorld 7).1 7
          (Ur_rtde_RTDEControlInterface_initPeriod 32 (-1234567890) demoWorld 7).2).calls =
        demoWorld.calls ++ [ExtCall.control_initPeriod 7, ExtCall.control_waitPeriod 7 t1] ∧
      |(-1234567890 : Int) - t1| < 1000000 :=
  have h := timestamp_roundtrip 32 (-1234567890) demoWorld 7 (by decide) (by decide)
    (by decide) (by decide)
  ⟨by decide, by decide, h.choose, h.choose_spec.1, h.choose_spec.2.2.2.1⟩

/-- C10: in-range enumeration codes round-trip, `toCode` being the member's position.
The member `movePath` selects for `toCode e` is `e` for the move type and for the
position type, the member the gripper functions select for `toCode m` is `m` for the
move mode, and the member `emergencyRelease` selects for `toCode d` is `d` for the
position id; each mapping is injective on its range of codes and reaches every member.
On live handles this is what reaches the library: entry `i` of the path handed over
by `movePath` carries the members whose codes are at index `i`, and `move`, `open`,
`close` and `emergencyRelease` forward the members whose codes they were given. -/
theorem enum_codes_roundtrip {F D : Type} (s : World F D) (g c : Nat)
    (hg : g ∈ s.gripperInterfaces) (hc : c ∈ s.controlInterfaces) :
    ((∀ e : eMoveType, movePath_moveType e.toCode = some e) ∧
      (∀ e : ePositionType, movePath_posType e.toCode = e) ∧
      (∀ m : eMoveMode, gripper_moveMode m.toCode = m) ∧
      (∀ d : ePostionId, emergencyRelease_dir d.toCode = d)) ∧
    ((∀ c1 c2 : Int, 0 ≤ c1 → c1 < 4 → 0 ≤ c2 → c2 < 4 →
        movePath_moveType c1 = movePath_moveType c2 → c1 = c2) ∧
      (∀ c1 c2 : Int, 0 ≤ c1 → c1 < 2 → 0 ≤ c2 → c2 < 2 →
        movePath_posType c1 = movePath_posType c2 → c1 = c2) ∧
      (∀ c1 c2 : Int, 0 ≤ c1 → c1 < 2 → 0 ≤ c2 → c2 < 2 →
        gripper_moveMode c1 = gripper_moveMode c2 → c1 = c2) ∧
      (∀ c1 c2 : Int, 0 ≤ c1 → c1 < 2 → 0 ≤ c2 → c2 < 2 →
        emergencyRelease_dir c1 = emergencyRelease_dir c2 → c1 = c2)) ∧
    ((∀ e : eMoveType, ∃ c1 : Int, 0 ≤ c1 ∧ c1 < 4 ∧ movePath_moveType c1 = some e) ∧
      (∀ e : ePositionType, ∃ c1 : Int, 0 ≤ c1 ∧ c1 < 2 ∧ movePath_posType c1 = e) ∧
      (∀ m : eMoveMode, ∃ c1 : Int, 0 ≤ c1 ∧ c1 < 2 ∧ gripper_moveMode c1 = m) ∧
      (∀ d : ePostionId, ∃ c1 : Int, 0 ≤ c1 ∧ c1 < 2 ∧ emergencyRelease_dir c1 = d)) ∧
    (∀ (widen : F → D) (ret : Bool) (count : Int) (mt pt pc : Nat → Int) (total : Int)
        (ps : Nat → F) (a : Bool) (i : Nat) (e : eMoveType) (q : ePositionType),
      i < count.toNat → mt i = e.toCode → pt i = q.toCode →
      ∃ path : Path D,
        (Ur_rtde_RTDEControlInterface_movePath widen ret s c count mt pt pc total ps a).1.calls =
          s.calls ++ [ExtCall.control_movePath c path a] ∧
        (path.get? i).map (fun x => (x.move_type, x.position_type)) = some (some e, q)) ∧
    (∀ (ret : Int) (position speed force : F) (m : eMoveMode),
      (Ur_rtde_RobotiqGripper_move ret s g position speed force m.toCode).1.calls =
          s.calls ++ [ExtCall.gripper_move g position speed force m] ∧
      (Ur_rtde_RobotiqGripper_open ret s g speed force m.toCode).1.calls =
          s.calls ++ [ExtCall.gripper_open g speed force m] ∧
      (Ur_rtde_RobotiqGripper_close ret s g speed force m.toCode).1.calls =
          s.calls ++ [ExtCall.gripper_close g speed force m]) ∧
    (∀ (d : ePostionId) (m : eMoveMode),
      (Ur_rtde_RobotiqGripper_emergencyRelease s g d.toCode m.toCode).calls =
        s.calls ++ [ExtCall.gripper_emergencyRelease g d m]) := by
  have hmt : ∀ e : eMoveType, movePath_moveType e.toCode = some e := by
    intro e; cases e <;> rfl
  have hpt : ∀ e : ePositionType, movePath_posType e.toCode = e := by
    intro e; cases e <;> rfl
  have hmm : ∀ m : eMoveMode, gripper_moveMode m.toCode = m := by
    intro m; cases m <;> rfl
  have hdd : ∀ d : ePostionId, emergencyRelease_dir d.toCode = d := by
    intro d; cases d <;> rfl
  refine ⟨⟨hmt, hpt, hmm, hdd⟩, ⟨?_, ?_, ?_, ?_⟩, ⟨?_, ?_, ?_, ?_⟩, ?_, ?_, ?_⟩
  · intro c1 c2 h1 h2 h3 h4 h
    have e1 : c1 = 0 ∨ c1 = 1 ∨ c1 = 2 ∨ c1 = 3 := by omega
    have e2 : c2 = 0 ∨ c2 = 1 ∨ c2 = 2 ∨ c2 = 3 := by omega
    rcases e1 with rfl | rfl | rfl | rfl <;> rcases e2 with rfl | rfl | rfl | rfl <;>
      first | rfl | exact absurd h (by decide)
  · intro c1 c2 h1 h2 h3 h4 h
    have e1 : c1 = 0 ∨ c1 = 1 := by omega
    have e2 : c2 = 0 ∨ c2 = 1 := by omega
    rcases e1 with rfl | rfl <;> rcases e2 with rfl | rfl <;>
      first | rfl | exact absurd h (by decide)
  · intro c1 c2 h1 h2 h3 h4 h
    have e1 : c1 = 0 ∨ c1 = 1 := by omega
    have e2 : c2 = 0 ∨ c2 = 1 := by omega
    rcases e1 with rfl | rfl <;> rcases e2 with rfl | rfl <;>
      first | rfl | exact absurd h (by decide)
  · intro c1 c2 h1 h2 h3 h4 h
    have e1 : c1 = 0 ∨ c1 = 1 := by omega
    have e2 : c2 = 0 ∨ c2 = 1 := by omega
    rcases e1 with rfl | rfl <;> rcases e2 with rfl | rfl <;>
      first | rfl | exact absurd h (by decide)
  · intro e
    exact ⟨e.toCode, by cases e <;> decide, by cases e <;> decide, hmt e⟩
  · intro e
    exact ⟨e.toCode, by cases e <;> decide, by cases e <;> decide, hpt e⟩
  · intro m
    exact ⟨m.toCode, by cases m <;> decide, by cases m <;> decide, hmm m⟩
  · intro d
    exact ⟨d.toCode, by cases d <;> decide, by cases d <;> decide, hdd d⟩
  · intro widen ret count mt pt pc total ps a i e q hi hme hpq
    refine ⟨(List.range count.toNat).map (entryAt widen mt pt pc ps), ?_, ?_⟩
    · rw [movePath_valid widen ret s c count mt pt pc total ps a hc]
      rfl
    · simp [List.getElem?_range hi, entryAt, hme, hpq, hmt, hpt]
  · intro ret position speed force m
    simp [Ur_rtde_RobotiqGripper_move, Ur_rtde_RobotiqGripper_open,
      Ur_rtde_RobotiqGripper_close, isValidGripperInterface, hg, hmm, World.call]
  · intro d m
    simp [Ur_rtde_RobotiqGripper_emergencyRelease, isValidGripperInterface, hg, hmm, hdd,
      World.call]

/-- C10 on `demoWorld`, live gripper handle 9 and live control handle 7:
`emergencyRelease` given the codes of `CLOSE` and `START_MOVE` forwards exactly these. -/
theorem enum_codes_roundtrip_witness :
    9 ∈ demoWorld.gripperInterfaces ∧ 7 ∈ demoWorld.controlInterfaces ∧
    (Ur_rtde_RobotiqGripper_emergencyRelease demoWorld 9 ePostionId.CLOSE.toCode
      eMoveMode.START_MOVE.toCode).calls =
      demoWorld.calls ++ [ExtCall.gripper_emergencyRelease 9 .CLOSE .START_MOVE] :=
  ⟨by decide, by decide,
    (enum_codes_roundtrip demoWorld 9 7 (by decide) (by decide)).2.2.2.2.2 .CLOSE .START_MOVE⟩

/-- C11: construction, for each of the three kinds, with the constructor either
throwing (`none`) or succeeding with a new object at a non-null address (`some obj`).
When it throws, `new` returns the null handle 0 as an ordinary result, all three
registries are what they were, and only the diagnostic line is added to `std::cerr`.
When it succeeds, the returned handle is the object's address, so non-null, the
kind's registry is the old one plus exactly that handle, and the other two registries
are what they were. In both cases the one library call made is the constructor. -/
theorem construction_outcome {F D : Type} (k : Kind) (FLAGS_DEFAULT FLAG_VERBOSE : Nat)
    (s : World F D) (ip : String) (port : Int) (verbose : Bool) :
    ((create k FLAGS_DEFAULT FLAG_VERBOSE none s ip port verbose).2 = 0 ∧
      (∀ k1 : Kind,
        registry k1 (create k FLAGS_DEFAULT FLAG_VERBOSE none s ip port verbose).1 =
          registry k1 s) ∧
      (create k FLAGS_DEFAULT FLAG_VERBOSE none s ip port verbose).1.mem = s.mem ∧
      (∃ msg : String,
        (create k FLAGS_DEFAULT FLAG_VERBOSE none s ip port verbose).1.cerr = s.cerr ++ [msg]) ∧
      (∃ c : ExtCall F D,
        (create k FLAGS_DEFAULT FLAG_VERBOSE none s ip port verbose).1.calls =
          s.calls ++ [c])) ∧
    (∀ obj : Nat, obj ≠ 0 →
      (create k FLAGS_DEFAULT FLAG_VERBOSE (some obj) s ip port verbose).2 = obj ∧
      (create k FLAGS_DEFAULT FLAG_VERBOSE (some obj) s ip port verbose).2 ≠ 0 ∧
      registry k (create k FLAGS_DEFAULT FLAG_VERBOSE (some obj) s ip port verbose).1 =
        insert obj (registry k s) ∧
      (∀ h : Nat,
        h ∈ registry k (create k FLAGS_DEFAULT FLAG_VERBOSE (some obj) s ip port verbose).1 ↔
          h = obj ∨ h ∈ registry k s) ∧
      (∀ k1 : Kind, k1 ≠ k →
        registry k1 (create k FLAGS_DEFAULT FLAG_VERBOSE (some obj) s ip port verbose).1 =
          registry k1 s) ∧
      (create k FLAGS_DEFAULT FLAG_VERBOSE (some obj) s ip port verbose).1.cerr = s.cerr ∧
      (∃ c : ExtCall F D,
        (create k FLAGS_DEFAULT FLAG_VERBOSE (some obj) s ip port verbose).1.calls =
          s.calls ++ [c])) := by
  constructor
  · refine ⟨(registry_create_none k k FLAGS_DEFAULT FLAG_VERBOSE s ip port verbose).1,
      fun k1 => (registry_create_none k k1 FLAGS_DEFAULT FLAG_VERBOSE s ip port verbose).2,
      ?_, ?_, ?_⟩
    · cases k <;> rfl
    · cases k <;> exact ⟨_, rfl⟩
    · cases k <;> exact ⟨_, rfl⟩
  · intro obj hobj
    have hc := registry_create_some k FLAGS_DEFAULT FLAG_VERBOSE obj s ip port verbose
    refine ⟨hc.1, ?_, hc.2.1, ?_, hc.2.2, ?_, ?_⟩
    · rw [hc.1]; exact hobj
    · intro h
      rw [hc.2.1, Finset.mem_insert]
    · cases k <;> rfl
    · cases k <;> exact ⟨_, rfl⟩

/-- C11 on `demoWorld` for the control kind: a throwing constructor gives the null
handle and leaves the control registry at its old content; a constructor succeeding
at address 21 gives the handle 21 and the registry with 21 added. -/
theorem construction_outcome_witness :
    (create .Control 1 4 none demoWorld "10.0.0.2" 0 true).2 = 0 ∧
    registry .Control (create .Control 1 4 none demoWorld "10.0.0.2" 0 true).1 =
      registry .Control demoWorld ∧
    (21 : Nat) ≠ 0 ∧
    (create .Control 1 4 (some 21) demoWorld "10.0.0.2" 0 true).2 = 21 ∧
    registry .Control (create .Control 1 4 (some 21) demoWorld "10.0.0.2" 0 true).1 =
      insert 21 (registry .Control demoWorld) :=
  have h := construction_outcome .Control 1 4 demoWorld "10.0.0.2" 0 true
  ⟨h.1.1, h.1.2.1 .Control, by decide, (h.2 21 (by decide)).1, (h.2 21 (by decide)).2.2.1⟩

end UrRtde
